import Mathlib

/-!
Shallow embedding of `jina/types/request/__init__.py` (class `Request`):
a lazy, copy-avoiding envelope that holds either a raw compressed byte
buffer or a parsed `RequestProto`, deferring decompression/parsing until
the first field access.

Python-level conventions of the embedding:
* byte strings are `List Nat`;
* an operation that can raise returns `Except PyError _`; operations that
  mutate `self` additionally return the updated `Request` state;
* the protobuf runtime, the compression codecs and the generated schema
  `jina_pb2` are external collaborators (they are not under `src/`), so
  they are modelled from the spec where their behaviour decides a claim;
* the decompress-and-parse transition carries a ghost counter
  `parse_count` that instruments how many times `ParseFromString` ran.
-/

/-- Byte strings, as exchanged with the protobuf runtime and the codecs. -/
abbrev Bytes := List Nat

/-- Python exceptions that the modelled code paths can raise. -/
inductive PyError where
  | attributeError (msg : String)
  | typeError (msg : String)
  | decodeError
  | unsupportedAlgorithm
  deriving DecidableEq, Repr

/-- Compression algorithm tags, mirroring `jina.enums.CompressAlgo`
(`NONE, LZ4, BZ2, LZMA, ZLIB, GZIP`). -/
inductive CompressAlgo where
  | NONE | LZ4 | BZ2 | LZMA | ZLIB | GZIP
  deriving DecidableEq, Repr

/-- Modelled from the spec: the compression sub-message of the envelope
(`envelope.compression.algorithm`), an algorithm identifier string carried
alongside the message (`jina_pb2.EnvelopeProto` is generated schema code
not under `src/`). -/
structure CompressConfigProto where
  algorithm : String
  deriving DecidableEq, Repr

/-- Modelled from the spec: envelope metadata, sideband information owned
independently of the message body and never mutated by this core. -/
structure EnvelopeProto where
  compression : CompressConfigProto
  deriving DecidableEq, Repr

/-- Modelled from the spec: the canonical structured form of a document
(`jina_pb2.DocumentProto`); its inner fields are opaque to this core, only
identity of the payload matters to the claims. -/
structure DocumentProto where
  data : Nat
  deriving DecidableEq, Repr

/-- Modelled from the spec: a structured query-fragment record
(`jina_pb2.QueryLangProto`), a small structured record attachable to the
message's shared collection. -/
structure QueryLangProto where
  name : String
  priority : Nat
  deriving DecidableEq, Repr

/-- Fresh element produced by `queryset.add()`: protobuf default-initializes
every field (empty string, zero). -/
def QueryLangProto.default : QueryLangProto := { name := "", priority := 0 }

/-- The four mutually-exclusive body variant kinds of the `body` oneof
(also the values of `jina.enums.ClientMode`, whose lowercased names select
the matching oneof field in `add_document`/`add_groundtruth`). -/
inductive BodyVariant where
  | index | search | train | control
  deriving DecidableEq, Repr

/-- Modelled from the spec: the shape shared by the four body variant
sub-messages (`IndexRequestProto`, `SearchRequestProto`, `TrainRequestProto`,
`ControlRequestProto`): each variant exposes a document list and a
ground-truth document list. -/
structure BodyProto where
  docs : List DocumentProto
  groundtruths : List DocumentProto
  deriving DecidableEq, Repr

/-- Modelled from the spec: the top-level `jina_pb2.RequestProto`: a unique
identifier field, a mutually-exclusive `body` oneof over the four variant
kinds, and a shared query-fragment list. `body = none` models an unset
oneof (`WhichOneof` returns `None`). -/
structure RequestProto where
  request_id : String
  body : Option (BodyVariant × BodyProto)
  queryset : List QueryLangProto
  deriving DecidableEq, Repr

/-- Reading oneof field `k` of the proto (`getattr(pb, k)`): yields the
stored variant when `k` is the active one, otherwise a default-initialized
(empty) sub-message view; reading alone does not select the oneof. -/
def RequestProto.getBody (r : RequestProto) (k : BodyVariant) : BodyProto :=
  match r.body with
  | some (k', v) => if k' = k then v else { docs := [], groundtruths := [] }
  | none => { docs := [], groundtruths := [] }

/-- Mutating oneof field `k` (protobuf oneof semantics, per the spec's
mutually-exclusive body selector): the oneof switches to `k`, clearing any
previously active variant. -/
def RequestProto.setBody (r : RequestProto) (k : BodyVariant) (v : BodyProto) :
    RequestProto :=
  { r with body := some (k, v) }

/-- External value type `jina.types.document.Document`: only its
`as_pb_object` (canonical structured form) is consumed by this core. -/
structure Document where
  pb : DocumentProto
  deriving DecidableEq, Repr

/-- External value type `jina.types.querylang.QueryLang`: only its
`as_pb_object` is consumed by this core. -/
structure QueryLang where
  pb : QueryLangProto
  deriving DecidableEq, Repr

/-- External type `jina.drivers.BaseDriver`: convertible to a query
fragment via its canonical fragment representation
(`QueryLang(driver).as_pb_object`). -/
structure BaseDriver where
  ql : QueryLangProto
  deriving DecidableEq, Repr

/-- The runtime kinds an element of the `extend_queryset` argument can
have, mirroring the `isinstance` dispatch in the source; `unknown` carries
`typename(q)` for any unrecognized kind. -/
inductive QuerySetItem where
  | ofQueryLang (q : QueryLang)
  | ofDriver (d : BaseDriver)
  | ofProto (p : QueryLangProto)
  | unknown (tyname : String)
  deriving DecidableEq, Repr

/-- External codecs and helpers used by `Request._decompress`: the
`CompressAlgo.from_string` lookup (unknown identifier is a fatal
configuration error) and one opaque decoder per algorithm; none of them is
code under `src/`, so they stay abstract parameters. -/
structure Codecs where
  from_string : String → Except PyError CompressAlgo
  lz4 : Bytes → Except PyError Bytes
  bz2 : Bytes → Except PyError Bytes
  lzma : Bytes → Except PyError Bytes
  zlib : Bytes → Except PyError Bytes
  gzip : Bytes → Except PyError Bytes

/-- External protobuf runtime operations on `RequestProto`:
`ParseFromString` (fails on malformed bytes) and `SerializeToString`. -/
structure ProtoOps where
  parseFromString : Bytes → Except PyError RequestProto
  serializeProto : RequestProto → Bytes

/-- The state of one `jina.types.request.Request` instance: the raw buffer
(`self._buffer`), the parsed object (`self._request`), the borrowed
envelope (`self._envelope`) and the touched flag (`self.is_used`).
`parse_count` is a ghost counter of executed decompress-and-parse steps
(it instruments `r.ParseFromString(_buffer)` in `as_pb_object`). -/
structure Request where
  buffer : Option Bytes
  request : Option RequestProto
  envelope : Option EnvelopeProto
  is_used : Bool
  parse_count : Nat
  deriving DecidableEq, Repr

/-- Constructor branch `isinstance(request, bytes)` of `Request.__init__`:
store the buffer undecoded; `is_used` ends `False`. -/
def Request.initBytes (b : Bytes) (env : Option EnvelopeProto) : Request :=
  { buffer := some b, request := none, envelope := env,
    is_used := false, parse_count := 0 }

/-- Constructor branch `isinstance(request, jina_pb2.RequestProto)` of
`Request.__init__`. With `copy = True` the source runs
`self._request.CopyFrom(request)` while `self._request` is still `None`,
so Python raises `AttributeError`; with `copy = False` the given object is
stored by reference. `is_used` ends `False`. -/
def Request.initProto (r : RequestProto) (env : Option EnvelopeProto)
    (copy : Bool) : Except PyError Request :=
  if copy then
    .error (.attributeError "NoneType object has no attribute CopyFrom")
  else
    .ok { buffer := none, request := some r, envelope := env,
          is_used := false, parse_count := 0 }

/-- Constructor branch `request is None` of `Request.__init__`: build an
empty `RequestProto` and assign `request_id = get_random_identity()` (the
identity generator is external, so the fresh identifier is a parameter).
`is_used` ends `False`. -/
def Request.initNone (rid : String) (env : Option EnvelopeProto) : Request :=
  { buffer := none,
    request := some { request_id := rid, body := none, queryset := [] },
    envelope := env, is_used := false, parse_count := 0 }

/-- Static method `Request._decompress(data, algorithm)`: empty (falsy)
identifier is identity; otherwise dispatch on `CompressAlgo.from_string`;
a tag outside the five handled branches (`NONE`) falls through and returns
the data unchanged. -/
def Request.decompress (C : Codecs) (data : Bytes) (algorithm : String) :
    Except PyError Bytes :=
  if algorithm = "" then .ok data
  else
    match C.from_string algorithm with
    | .error e => .error e
    | .ok ctag =>
      match ctag with
      | .LZ4 => C.lz4 data
      | .BZ2 => C.bz2 data
      | .LZMA => C.lzma data
      | .ZLIB => C.zlib data
      | .GZIP => C.gzip data
      | .NONE => .ok data

/-- Property `Request.as_pb_object`: if `self._request` is already set
(protobuf messages are always truthy), mark used and return it; otherwise
decompress `self._buffer` with the envelope's algorithm (an absent
envelope makes `self._envelope.compression` raise `AttributeError`, an
absent buffer makes `ParseFromString(None)` raise `TypeError`), parse,
cache the parsed object, mark used, and return it. -/
def Request.as_pb_object (C : Codecs) (P : ProtoOps) (s : Request) :
    Except PyError (RequestProto × Request) :=
  match s.request with
  | some r => .ok (r, { s with is_used := true })
  | none =>
    match s.envelope with
    | none => .error (.attributeError "NoneType object has no attribute compression")
    | some env =>
      match s.buffer with
      | none => .error (.typeError "a bytes-like object is required, not NoneType")
      | some buf =>
        match Request.decompress C buf env.compression.algorithm with
        | .error e => .error e
        | .ok data =>
          match P.parseFromString data with
          | .error e => .error e
          | .ok r =>
            .ok (r, { s with is_used := true, request := some r,
                             parse_count := s.parse_count + 1 })

/-- Method `Request.SerializeToString`: when touched, re-serialize the
materialized object; when never touched, return `self._buffer` verbatim
(which is `None` when the instance was not constructed from bytes). -/
def Request.serializeToString (C : Codecs) (P : ProtoOps) (s : Request) :
    Except PyError (Option Bytes × Request) :=
  if s.is_used then
    match Request.as_pb_object C P s with
    | .error e => .error e
    | .ok (r, s') => .ok (some (P.serializeProto r), s')
  else
    .ok (s.buffer, s)

/-- Modelled from the spec: `_trigger_body_fields`, the union of the field
names of the four body-variant sub-messages; per the spec each variant
exposes a document list and a ground-truth document list. -/
def trigger_body_fields : List String := ["docs", "groundtruths"]

/-- Modelled from the spec: the field names of the top-level
`RequestProto` schema — the unique identifier, the shared query-fragment
list and the four oneof body fields. -/
def request_proto_fields : List String :=
  ["request_id", "queryset", "index", "search", "train", "control"]

/-- Modelled from the spec: `hasattr(_empty_request, name)` against an
empty `RequestProto`, abstracted (as the spec does for the external schema
boundary) to membership in the top-level message's own field set. -/
def hasattr_empty_request (name : String) : Bool :=
  name ∈ request_proto_fields

/-- Field read on a body-variant sub-message (`getattr(req, name)` on the
active variant): `none` models `AttributeError` for a name the variant
does not define. The result carries the list read. -/
def BodyProto.getField (b : BodyProto) (name : String) :
    Option (List DocumentProto) :=
  if name = "docs" then some b.docs
  else if name = "groundtruths" then some b.groundtruths
  else none

/-- Observable values a top-level field read can produce. -/
inductive FieldValue where
  | str (s : String)
  | docList (l : List DocumentProto)
  | qlList (l : List QueryLangProto)
  | bodyMsg (b : BodyProto)
  deriving DecidableEq, Repr

/-- Field read on the top-level proto (`getattr(self.as_pb_object, name)`);
reading a oneof body field yields its (possibly default) sub-message view. -/
def RequestProto.getField (r : RequestProto) (name : String) :
    Option FieldValue :=
  if name = "request_id" then some (.str r.request_id)
  else if name = "queryset" then some (.qlList r.queryset)
  else if name = "index" then some (.bodyMsg (r.getBody .index))
  else if name = "search" then some (.bodyMsg (r.getBody .search))
  else if name = "train" then some (.bodyMsg (r.getBody .train))
  else if name = "control" then some (.bodyMsg (r.getBody .control))
  else none

/-- Method `Request.__getattr__(name)`: a body-variant field name is read
from the currently-active variant of the materialized message
(`WhichOneof('body')` returning `None` makes `getattr(pb, None)` raise
`TypeError`); else a name `_empty_request` has is read from the
materialized message; else `AttributeError`. -/
def Request.getattrImpl (C : Codecs) (P : ProtoOps) (name : String)
    (s : Request) : Except PyError (FieldValue × Request) :=
  if name ∈ trigger_body_fields then
    match Request.as_pb_object C P s with
    | .error e => .error e
    | .ok (r, s') =>
      match r.body with
      | none => .error (.typeError "attribute name must be string, not NoneType")
      | some (_, v) =>
        match v.getField name with
        | some l => .ok (.docList l, s')
        | none => .error (.attributeError name)
  else if hasattr_empty_request name then
    match Request.as_pb_object C P s with
    | .error e => .error e
    | .ok (r, s') =>
      match r.getField name with
      | some fv => .ok (fv, s')
      | none => .error (.attributeError name)
  else
    .error (.attributeError name)

/-- Method `Request.add_document(document, mode)`: materialize, select the
oneof field named `str(mode).lower()`, and append a `CopyFrom` deep copy
of `document.as_pb_object` to its `docs` collection (mutating the
sub-message selects the oneof, clearing any other active variant). -/
def Request.add_document (C : Codecs) (P : ProtoOps) (document : Document)
    (mode : BodyVariant) (s : Request) : Except PyError Request :=
  match Request.as_pb_object C P s with
  | .error e => .error e
  | .ok (r, s') =>
    let v := r.getBody mode
    let r' := r.setBody mode { v with docs := v.docs ++ [document.pb] }
    .ok { s' with request := some r' }

/-- Method `Request.add_groundtruth(document, mode)`: same as
`add_document` but appending into the `groundtruths` collection. -/
def Request.add_groundtruth (C : Codecs) (P : ProtoOps) (document : Document)
    (mode : BodyVariant) (s : Request) : Except PyError Request :=
  match Request.as_pb_object C P s with
  | .error e => .error e
  | .ok (r, s') =>
    let v := r.getBody mode
    let r' := r.setBody mode { v with groundtruths := v.groundtruths ++ [document.pb] }
    .ok { s' with request := some r' }

/-- One iteration of the loop in `Request.extend_queryset`:
`q_pb = self.as_pb_object.queryset.add()` first appends a
default-initialized fragment, then the `isinstance` dispatch overwrites it
in place via `CopyFrom` — or raises `TypeError` naming the offending kind,
leaving the default entry appended. -/
def Request.extendStep (r : RequestProto) (q : QuerySetItem) :
    RequestProto × Option PyError :=
  match q with
  | .ofDriver d =>
    ({ r with queryset := r.queryset ++ [d.ql] }, none)
  | .ofProto p =>
    ({ r with queryset := r.queryset ++ [p] }, none)
  | .ofQueryLang l =>
    ({ r with queryset := r.queryset ++ [l.pb] }, none)
  | .unknown t =>
    ({ r with queryset := r.queryset ++ [QueryLangProto.default] },
     some (.typeError ("unknown type " ++ t)))

/-- The `for q in queryset` loop of `Request.extend_queryset`, threading
the mutated proto; a raised `TypeError` stops the loop but keeps all
mutations already performed. -/
def Request.extendLoop (r : RequestProto) :
    List QuerySetItem → RequestProto × Option PyError
  | [] => (r, none)
  | q :: rest =>
    match Request.extendStep r q with
    | (r', none) => Request.extendLoop r' rest
    | (r', some e) => (r', some e)

/-- Method `Request.extend_queryset(queryset)` applied to a sequence
argument: an empty sequence performs no iteration (and so never touches
`as_pb_object`); otherwise the first iteration materializes the message
and the loop runs as `extendLoop`. The final state is returned together
with the raised error, if any, since partial appends survive the raise. -/
def Request.extend_queryset (C : Codecs) (P : ProtoOps)
    (items : List QuerySetItem) (s : Request) :
    Except PyError (Request × Option PyError) :=
  match items with
  | [] => .ok (s, none)
  | _ :: _ =>
    match Request.as_pb_object C P s with
    | .error e => .error e
    | .ok (r, s') =>
      let (r', err) := Request.extendLoop r items
      .ok ({ s' with request := some r' }, err)

/-- Method `Request.extend_queryset(queryset)` applied to a single
non-sequence item: the source wraps it as `queryset = [queryset]`. -/
def Request.extend_queryset_single (C : Codecs) (P : ProtoOps)
    (q : QuerySetItem) (s : Request) :
    Except PyError (Request × Option PyError) :=
  Request.extend_queryset C P [q] s

/-- Recognition predicate of the `isinstance` dispatch in
`extend_queryset`. -/
def QuerySetItem.isUnknown : QuerySetItem → Bool
  | .unknown _ => true
  | _ => false

/-- The normalized structured form a recognized item is appended as
(driver-like inputs go through their canonical fragment representation);
on an `unknown` item (never reached under `isUnknown = false`) it yields
the default fragment. -/
def QuerySetItem.normalize : QuerySetItem → QueryLangProto
  | .ofDriver d => d.ql
  | .ofProto p => p
  | .ofQueryLang l => l.pb
  | .unknown _ => QueryLangProto.default

/-- Helper law: reading back the oneof field that was just mutated yields
the stored variant. -/
theorem RequestProto.getBody_setBody_self (r : RequestProto) (k : BodyVariant)
    (v : BodyProto) : (r.setBody k v).getBody k = v := by
  simp [RequestProto.setBody, RequestProto.getBody]

/-- Helper law: after mutating oneof field `k`, every other oneof field
reads as a default (empty) sub-message. -/
theorem RequestProto.getBody_setBody_ne (r : RequestProto) (k k' : BodyVariant)
    (v : BodyProto) (h : k' ≠ k) :
    (r.setBody k v).getBody k' = { docs := [], groundtruths := [] } := by
  simp [RequestProto.setBody, RequestProto.getBody]
  intro hk
  exact absurd hk.symm h

/-- Test fixture: identity codecs (algorithm lookup always succeeds, each
decoder is the identity); only exercised by paths the concrete witnesses
drive through the cached-object branch or the empty-algorithm branch. -/
def testCodecs : Codecs :=
  { from_string := fun _ => .ok .NONE,
    lz4 := fun b => .ok b, bz2 := fun b => .ok b, lzma := fun b => .ok b,
    zlib := fun b => .ok b, gzip := fun b => .ok b }

/-- Test fixture: a trivial protobuf runtime (parsing always yields an
empty message, serialization yields the empty byte string). -/
def testProtoOps : ProtoOps :=
  { parseFromString := fun _ => .ok { request_id := "", body := none, queryset := [] },
    serializeProto := fun _ => [] }

/-- Test fixture: the parsed object held by a freshly constructed
(`request=None`) instance with identifier string `fresh-id`. -/
def testProtoFresh : RequestProto :=
  { request_id := "fresh-id", body := none, queryset := [] }

/-- Test fixture: a freshly constructed instance. -/
def testReqFresh : Request := Request.initNone "fresh-id" none

/-- Test fixture: the fresh instance after its first materialization. -/
def testReqFreshUsed : Request := { testReqFresh with is_used := true }

/-- Test fixture documents. -/
def docA : DocumentProto := { data := 1 }

/-- Test fixture document distinct from `docA`. -/
def docB : DocumentProto := { data := 2 }

/-- Test fixture: a parsed message whose active body variant is `index`
with one attached document. -/
def protoWithIndexDoc : RequestProto :=
  { request_id := "r1",
    body := some (.index, { docs := [docA], groundtruths := [] }),
    queryset := [] }

/-- Test fixture: an instance owning `protoWithIndexDoc` by reference, as
built by the `copy=False` constructor branch. -/
def reqWithIndexDoc : Request :=
  { buffer := none, request := some protoWithIndexDoc, envelope := none,
    is_used := false, parse_count := 0 }

/-- Test fixture query fragments. -/
def qlA : QueryLangProto := { name := "slice", priority := 1 }

/-- Test fixture query fragment distinct from `qlA`. -/
def qlB : QueryLangProto := { name := "sort", priority := 2 }

/-- C1: for every byte buffer `b` and (arbitrary, hence arbitrary
compression algorithm) envelope metadata, an instance constructed from `b`
on which nothing was read or mutated returns exactly `b` from
`SerializeToString`, leaving the state untouched. -/
theorem serialize_untouched_bytes_passthrough (C : Codecs) (P : ProtoOps)
    (b : Bytes) (env : Option EnvelopeProto) :
    Request.serializeToString C P (Request.initBytes b env) =
      .ok (some b, Request.initBytes b env) := rfl

/-- C2 (evaluating the code at the failing input): immediately after
construction from an existing structured message (`copy=False`) or via the
fresh constructor, `is_used` is `false`, not `true` as the spec claims.
(The `copy=True` branch does not even produce an instance; see the C3
theorem.) -/
theorem init_from_object_or_fresh_is_not_used (r : RequestProto)
    (env : Option EnvelopeProto) (rid : String) :
    Request.initProto r env false =
      .ok { buffer := none, request := some r, envelope := env,
            is_used := false, parse_count := 0 } ∧
    (Request.initNone rid env).is_used = false :=
  ⟨rfl, rfl⟩

/-- C3 (evaluating the code at the failing input): construction from a
structured message with `copy = true` raises `AttributeError` (the source
calls `CopyFrom` on `self._request` while it is still `None`) instead of
storing a deep clone; with `copy = false` the object is stored by direct
reference. -/
theorem init_proto_copy_true_raises (r : RequestProto)
    (env : Option EnvelopeProto) :
    Request.initProto r env true =
      .error (.attributeError "NoneType object has no attribute CopyFrom") ∧
    Request.initProto r env false =
      .ok { buffer := none, request := some r, envelope := env,
            is_used := false, parse_count := 0 } :=
  ⟨rfl, rfl⟩

/-- C9: an instance constructed from a structured object (`copy=False`) or
via the fresh constructor has `is_used = false`, so `SerializeToString`
takes the fast path and returns the never-assigned raw buffer, i.e.
`None`, rather than a serialized byte string. -/
theorem serialize_untouched_object_returns_none (C : Codecs) (P : ProtoOps)
    (r : RequestProto) (env : Option EnvelopeProto) (rid : String) :
    (∀ s : Request, Request.initProto r env false = .ok s →
      Request.serializeToString C P s = .ok (none, s)) ∧
    Request.serializeToString C P (Request.initNone rid env) =
      .ok (none, Request.initNone rid env) := by
  constructor
  · intro s h
    simp only [Request.initProto, if_neg (Bool.false_ne_true ∘ congrArg id),
      Except.ok.injEq] at h
    · cases h
      rfl
  · rfl

/-- Witness for the C9 theorem at a concrete object-constructed instance. -/
theorem serialize_untouched_object_returns_none_witness :
    Request.serializeToString testCodecs testProtoOps reqWithIndexDoc =
      .ok (none, reqWithIndexDoc) :=
  (serialize_untouched_object_returns_none testCodecs testProtoOps
    protoWithIndexDoc none "fresh-id").1 reqWithIndexDoc rfl

/-- C7: a second run of the materialization path returns the same parsed
object and the identical state, and the decompress-and-parse step runs at
most once across both calls (the ghost `parse_count` grows by at most one
and does not grow on the second call). -/
theorem as_pb_object_idempotent (C : Codecs) (P : ProtoOps) (s : Request)
    (r : RequestProto) (s₁ : Request)
    (h : Request.as_pb_object C P s = .ok (r, s₁)) :
    Request.as_pb_object C P s₁ = .ok (r, s₁) ∧
      s₁.parse_count ≤ s.parse_count + 1 := by
  obtain ⟨buf, req, env, used, pc⟩ := s
  cases req with
  | some r0 =>
    simp only [Request.as_pb_object, Except.ok.injEq, Prod.mk.injEq] at h
    obtain ⟨rfl, rfl⟩ := h
    exact ⟨rfl, Nat.le_succ _⟩
  | none =>
    cases env with
    | none => simp [Request.as_pb_object] at h
    | some e =>
      cases buf with
      | none => simp [Request.as_pb_object] at h
      | some b =>
        simp only [Request.as_pb_object] at h
        split at h
        · exact absurd h (by simp)
        · split at h
          · exact absurd h (by simp)
          · simp only [Except.ok.injEq, Prod.mk.injEq] at h
            obtain ⟨rfl, rfl⟩ := h
            exact ⟨rfl, Nat.le_refl _⟩

/-- Witness for the C7 theorem at a concrete fresh instance. -/
theorem as_pb_object_idempotent_witness :
    Request.as_pb_object testCodecs testProtoOps testReqFreshUsed =
      .ok (testProtoFresh, testReqFreshUsed) ∧
    testReqFreshUsed.parse_count ≤ testReqFresh.parse_count + 1 :=
  as_pb_object_idempotent testCodecs testProtoOps testReqFresh
    testProtoFresh testReqFreshUsed rfl

/-- Helper law: the `extend_queryset` loop processes a recognized prefix
by appending its normalized forms, in input order, before continuing. -/
theorem Request.extendLoop_append_of_recognized :
    ∀ (pre : List QuerySetItem) (r : RequestProto) (k : List QuerySetItem),
      (∀ q ∈ pre, q.isUnknown = false) →
      Request.extendLoop r (pre ++ k) =
        Request.extendLoop
          { r with queryset := r.queryset ++ pre.map QuerySetItem.normalize } k
  | [], r, k, _ => by simp
  | q :: qs, r, k, hpre => by
    have hq : q.isUnknown = false := hpre q (by simp)
    have hqs : ∀ x ∈ qs, x.isUnknown = false := fun x hx => hpre x (by simp [hx])
    cases q with
    | unknown t => simp [QuerySetItem.isUnknown] at hq
    | ofDriver d =>
      simpa [Request.extendLoop, Request.extendStep, QuerySetItem.normalize,
        List.append_assoc] using Request.extendLoop_append_of_recognized qs
          { r with queryset := r.queryset ++ [d.ql] } k hqs
    | ofProto p =>
      simpa [Request.extendLoop, Request.extendStep, QuerySetItem.normalize,
        List.append_assoc] using Request.extendLoop_append_of_recognized qs
          { r with queryset := r.queryset ++ [p] } k hqs
    | ofQueryLang l =>
      simpa [Request.extendLoop, Request.extendStep, QuerySetItem.normalize,
        List.append_assoc] using Request.extendLoop_append_of_recognized qs
          { r with queryset := r.queryset ++ [l.pb] } k hqs

/-- Helper law: on a nonempty argument, `extend_queryset` materializes and
then runs the loop over the materialized proto. -/
theorem Request.extend_queryset_nonempty (C : Codecs) (P : ProtoOps)
    (items : List QuerySetItem) (s : Request) (hne : items ≠ [])
    (r : RequestProto) (s₁ : Request)
    (hm : Request.as_pb_object C P s = .ok (r, s₁)) :
    Request.extend_queryset C P items s =
      .ok ({ s₁ with request := some (Request.extendLoop r items).1 },
           (Request.extendLoop r items).2) := by
  cases items with
  | nil => exact absurd rfl hne
  | cons q l =>
    simp only [Request.extend_queryset]
    rw [hm]

/-- C8: for a nonempty ordered sequence of recognized items,
`extend_queryset` appends exactly the normalized fragments, one per item,
in input order, to the shared query-fragment collection, and raises
nothing; for a single recognized non-sequence item it appends exactly
one. -/
theorem extend_queryset_appends_in_order (C : Codecs) (P : ProtoOps)
    (items : List QuerySetItem) (s : Request) (r : RequestProto)
    (s₁ : Request) (hrec : ∀ q ∈ items, q.isUnknown = false)
    (hne : items ≠ [])
    (hm : Request.as_pb_object C P s = .ok (r, s₁)) :
    Request.extend_queryset C P items s =
      .ok ({ s₁ with request := some { r with
               queryset := r.queryset ++ items.map QuerySetItem.normalize } },
           none) ∧
    (∀ q : QuerySetItem, q.isUnknown = false →
      Request.extend_queryset_single C P q s =
        .ok ({ s₁ with request := some { r with
                 queryset := r.queryset ++ [q.normalize] } },
             none)) ∧
    Request.extend_queryset C P [] s = .ok (s, none) := by
  refine ⟨?_, ?_, rfl⟩
  · have hL : Request.extendLoop r items =
        ({ r with queryset := r.queryset ++ items.map QuerySetItem.normalize }, none) := by
      have := Request.extendLoop_append_of_recognized items r [] hrec
      simpa [Request.extendLoop] using this
    rw [Request.extend_queryset_nonempty C P items s hne r s₁ hm, hL]
  · intro q hq
    have hL : Request.extendLoop r [q] =
        ({ r with queryset := r.queryset ++ [q.normalize] }, none) := by
      cases q <;>
        simp [Request.extendLoop, Request.extendStep, QuerySetItem.normalize,
          QuerySetItem.isUnknown] at hq ⊢
    rw [Request.extend_queryset_single,
      Request.extend_queryset_nonempty C P [q] s (by simp) r s₁ hm, hL]

/-- Witness for the C8 theorem: two recognized fragments (a structured
record and a query-fragment value object) are appended in order to a
fresh instance. -/
theorem extend_queryset_appends_in_order_witness :
    Request.extend_queryset testCodecs testProtoOps
        [QuerySetItem.ofProto qlA, QuerySetItem.ofQueryLang { pb := qlB }]
        testReqFresh =
      .ok ({ testReqFreshUsed with request := some { testProtoFresh with
               queryset := [qlA, qlB] } }, none) ∧
    (∀ q : QuerySetItem, q.isUnknown = false →
      Request.extend_queryset_single testCodecs testProtoOps q testReqFresh =
        .ok ({ testReqFreshUsed with request := some { testProtoFresh with
                 queryset := [q.normalize] } },
             none)) ∧
    Request.extend_queryset testCodecs testProtoOps [] testReqFresh =
      .ok (testReqFresh, none) := by
  have h := extend_queryset_appends_in_order testCodecs testProtoOps
    [QuerySetItem.ofProto qlA, QuerySetItem.ofQueryLang { pb := qlB }]
    testReqFresh testProtoFresh testReqFreshUsed
    (by intro q hq; fin_cases hq <;> rfl) (by simp) rfl
  simpa [QuerySetItem.normalize, testProtoFresh] using h

/-- C4 counterexample: `extend_queryset` on a list holding a single item
of unrecognized kind raises the type error naming the kind, but the
query-fragment collection does not stay empty — `queryset.add()` already
appended a default-initialized fragment before the `isinstance` dispatch,
so exactly one (empty) fragment is appended for that call. -/
theorem extend_queryset_unknown_counterexample :
    Request.extend_queryset testCodecs testProtoOps
        [QuerySetItem.unknown "int"] testReqFresh =
      .ok ({ testReqFreshUsed with request := some { testProtoFresh with
               queryset := [QueryLangProto.default] } },
           some (.typeError "unknown type int")) ∧
    (Request.extend_queryset testCodecs testProtoOps
        [QuerySetItem.unknown "int"] testReqFresh).map
      (fun p => p.1.request.map (fun r => r.queryset.length)) = .ok (some 1) :=
  ⟨rfl, rfl⟩

/-- C4 as amended: an unrecognized item makes the call fail with a type
error naming the offending kind; the recognized items before it remain
appended in order and nothing after it is processed, but for the offending
item itself a default-initialized (empty) fragment has already been
appended by `queryset.add()`, so a call on a single unsupported item
leaves exactly one empty fragment appended rather than nothing. -/
theorem extend_queryset_stops_at_unknown (C : Codecs) (P : ProtoOps)
    (s : Request) (pre : List QuerySetItem) (t : String)
    (rest : List QuerySetItem) (r : RequestProto) (s₁ : Request)
    (hpre : ∀ q ∈ pre, q.isUnknown = false)
    (hm : Request.as_pb_object C P s = .ok (r, s₁)) :
    Request.extend_queryset C P (pre ++ QuerySetItem.unknown t :: rest) s =
      .ok ({ s₁ with request := some { r with
               queryset := r.queryset ++ pre.map QuerySetItem.normalize
                             ++ [QueryLangProto.default] } },
           some (.typeError ("unknown type " ++ t))) := by
  have hne : pre ++ QuerySetItem.unknown t :: rest ≠ [] := by
    cases pre <;> simp
  rw [Request.extend_queryset_nonempty C P _ s hne r s₁ hm,
    Request.extendLoop_append_of_recognized pre r _ hpre]
  simp [Request.extendLoop, Request.extendStep, List.append_assoc]

/-- Witness for the C4 amended theorem: one recognized fragment followed
by an unrecognized item on a fresh instance. -/
theorem extend_queryset_stops_at_unknown_witness :
    Request.extend_queryset testCodecs testProtoOps
        [QuerySetItem.ofProto qlA, QuerySetItem.unknown "float",
         QuerySetItem.ofProto qlB] testReqFresh =
      .ok ({ testReqFreshUsed with request := some { testProtoFresh with
               queryset := [qlA, QueryLangProto.default] } },
           some (.typeError "unknown type float")) := by
  have h := extend_queryset_stops_at_unknown testCodecs testProtoOps
    testReqFresh [QuerySetItem.ofProto qlA] "float" [QuerySetItem.ofProto qlB]
    testProtoFresh testReqFreshUsed (by intro q hq; fin_cases hq; rfl) rfl
  simpa [QuerySetItem.normalize, testProtoFresh] using h

/-- C5 counterexample: the instance holds a message whose active body
variant is `index` with one attached document; `add_document` with
variant kind `search` switches the mutually-exclusive `body` oneof to
`search`, clearing the `index` variant — its document list goes from
`[docA]` to `[]`, so the other variants are not all left unchanged. -/
theorem add_document_clears_active_variant_counterexample :
    (Request.add_document testCodecs testProtoOps { pb := docB }
        BodyVariant.search reqWithIndexDoc).map
      (fun s' => s'.request.map (fun r => (r.getBody .index).docs)) =
      .ok (some []) ∧
    (protoWithIndexDoc.getBody .index).docs = [docA] :=
  ⟨rfl, rfl⟩

/-- C5 as amended: `add_document(doc, k)` appends a copy of `doc`'s
structured form to variant `k`'s document list only (its ground-truth list
is untouched); because the body selector is mutually exclusive, every
variant other than `k` reads as empty afterwards, and before the call
every variant other than `k` was either the uniquely active one (which the
call clears when it differs from `k`) or already empty — so the only
other variant whose lists can change is the previously active one. -/
theorem add_document_appends_only_selected_variant (C : Codecs)
    (P : ProtoOps) (document : Document) (mode : BodyVariant)
    (s : Request) (r : RequestProto) (s₁ : Request) (s' : Request)
    (hm : Request.as_pb_object C P s = .ok (r, s₁))
    (h : Request.add_document C P document mode s = .ok s') :
    ∃ r', s'.request = some r' ∧
      (r'.getBody mode).docs = (r.getBody mode).docs ++ [document.pb] ∧
      (r'.getBody mode).groundtruths = (r.getBody mode).groundtruths ∧
      ∀ k, k ≠ mode →
        r'.getBody k = { docs := [], groundtruths := [] } ∧
        (r.body.map Prod.fst = some k ∨
          r.getBody k = { docs := [], groundtruths := [] }) := by
  unfold Request.add_document at h
  rw [hm] at h
  simp only [Except.ok.injEq] at h
  subst h
  refine ⟨_, rfl, ?_, ?_, ?_⟩
  · rw [RequestProto.getBody_setBody_self]
  · rw [RequestProto.getBody_setBody_self]
  · intro k hk
    refine ⟨RequestProto.getBody_setBody_ne r mode k _ hk, ?_⟩
    rcases hb : r.body with _ | ⟨k0, v0⟩
    · exact Or.inr (by simp [RequestProto.getBody, hb])
    · by_cases hk0 : k0 = k
      · exact Or.inl (by simp [hb, hk0])
      · exact Or.inr (by simp [RequestProto.getBody, hb, hk0])

/-- Witness for the C5 amended theorem at the concrete `index`-active
instance, adding a document to the `search` variant. -/
theorem add_document_appends_only_selected_variant_witness :
    ∃ r', ({ reqWithIndexDoc with is_used := true,
                                  request := some (protoWithIndexDoc.setBody
                                    .search { protoWithIndexDoc.getBody .search with
                                      docs := (protoWithIndexDoc.getBody .search).docs ++ [docB] }) } :
             Request).request = some r' ∧
      (r'.getBody .search).docs =
        (protoWithIndexDoc.getBody .search).docs ++ [docB] ∧
      (r'.getBody .search).groundtruths =
        (protoWithIndexDoc.getBody .search).groundtruths ∧
      ∀ k, k ≠ BodyVariant.search →
        r'.getBody k = { docs := [], groundtruths := [] } ∧
        (protoWithIndexDoc.body.map Prod.fst = some k ∨
          protoWithIndexDoc.getBody k = { docs := [], groundtruths := [] }) :=
  add_document_appends_only_selected_variant testCodecs testProtoOps
    { pb := docB } .search reqWithIndexDoc protoWithIndexDoc
    { reqWithIndexDoc with is_used := true } _ rfl rfl

/-- C6: a name outside every body-variant field set and outside the
top-level message field set makes the name-based field read fail with
`AttributeError`; no value is produced. -/
theorem getattr_unknown_name_attribute_error (C : Codecs) (P : ProtoOps)
    (s : Request) (name : String)
    (h1 : name ∉ trigger_body_fields)
    (h2 : hasattr_empty_request name = false) :
    Request.getattrImpl C P name s = .error (.attributeError name) := by
  simp [Request.getattrImpl, h1, h2]

/-- Witness for the C6 theorem at a concrete unknown name. -/
theorem getattr_unknown_name_attribute_error_witness :
    Request.getattrImpl testCodecs testProtoOps "embedding" testReqFresh =
      .error (.attributeError "embedding") :=
  getattr_unknown_name_attribute_error testCodecs testProtoOps testReqFresh
    "embedding" (by decide) (by decide)

/-- C10: on a freshly constructed instance the materialized message has no
body variant selected, so reading any body-variant field name fails —
`WhichOneof('body')` yields `None` and `getattr(pb, None)` raises
`TypeError` — rather than returning a default value. -/
theorem getattr_body_field_no_active_variant_raises (C : Codecs)
    (P : ProtoOps) (name rid : String) (env : Option EnvelopeProto)
    (hname : name ∈ trigger_body_fields) :
    Request.getattrImpl C P name (Request.initNone rid env) =
      .error (.typeError "attribute name must be string, not NoneType") := by
  unfold Request.getattrImpl
  rw [if_pos hname]
  rfl

/-- Witness for the C10 theorem at the body-variant field name `docs`. -/
theorem getattr_body_field_no_active_variant_raises_witness :
    Request.getattrImpl testCodecs testProtoOps "docs"
        (Request.initNone "fresh-id" none) =
      .error (.typeError "attribute name must be string, not NoneType") :=
  getattr_body_field_no_active_variant_raises testCodecs testProtoOps
    "docs" "fresh-id" none (by decide)
